import Mathlib

/-!
Shallow embedding of the drawing-pipe geometric kernel.

Shapes (shapes.py): `Circle`, `Rect`, `Ellipse`, `CubicSplineShape` with their
area formulas and, for the spline shape, the 8-vertex outline.  Pipes
(pipes.py): the variant pairings `CircleCircle`, `CircleRect`, `EllipseRect`,
`RectRect`, `SplineSpline` with area, eccentricity and the 5-landmark wall
thickness.  Process analysis (src/drawing_pipe/core/process.py): the three
consecutive-pair metric series.  Python floats are idealised as real numbers;
a Python exception is an `Except` error value; numpy elementwise division,
which does not raise on zero denominators, is modelled by the total function
`npDiv` into `NpF` (a finite real or one of inf, negative inf, nan).
The numerically integrated spline area (scipy periodic cubic spline sampled
1000 times plus shoelace sum) is kept abstract as a parameter `splineArea`:
no claim below depends on its value.
-/

namespace DrawingPipe

noncomputable section
open Classical

/-- Circle (shapes.py): origin and diameter. -/
structure Circle where
  origin : ℝ × ℝ
  diameter : ℝ

/-- Circle.area = (diameter / 2) ** 2 * np.pi. -/
def Circle.area (c : Circle) : ℝ := (c.diameter / 2) ^ 2 * Real.pi

/-- Rect (shapes.py): origin, length, width, fillet radius (default 2.5). -/
structure Rect where
  origin : ℝ × ℝ
  length : ℝ
  width : ℝ
  fillet_radius : ℝ := 2.5

/-- Rect.area = length * width - (4 r^2 - pi r^2). -/
def Rect.area (r : Rect) : ℝ :=
  r.length * r.width - (4 * r.fillet_radius ^ 2 - Real.pi * r.fillet_radius ^ 2)

/-- Ellipse (shapes.py): origin, major and minor axes. -/
structure Ellipse where
  origin : ℝ × ℝ
  major_axis : ℝ
  minor_axis : ℝ

/-- Ellipse.area = pi * major * minor / 4. -/
def Ellipse.area (e : Ellipse) : ℝ := Real.pi * e.major_axis * e.minor_axis / 4

/-- CubicSplineShape (shapes.py): origin and three control offsets. -/
structure CubicSplineShape where
  origin : ℝ × ℝ
  v1 : ℝ × ℝ
  v2 : ℝ × ℝ
  v3 : ℝ × ℝ

/-- The 8 outline vertices of CubicSplineShape.vertices, in source order. -/
def CubicSplineShape.vertices (s : CubicSplineShape) : List (ℝ × ℝ) :=
  [(s.v1.1 + s.origin.1, s.v1.2 + s.origin.2),
   (s.v2.1 + s.origin.1, s.v2.2 + s.origin.2),
   (s.v3.1 + s.origin.1, s.v3.2 + s.origin.2),
   (s.v2.1 + s.origin.1, -s.v2.2 + s.origin.2),
   (s.origin.1, -s.v1.2 + s.origin.2),
   (-s.v2.1 + s.origin.1, -s.v2.2 + s.origin.2),
   (-s.v3.1 + s.origin.1, s.origin.2),
   (-s.v2.1 + s.origin.1, s.v2.2 + s.origin.2)]

/-- The generated vertices taken relative to the origin (vertex - origin). -/
def CubicSplineShape.relVertices (s : CubicSplineShape) : List (ℝ × ℝ) :=
  s.vertices.map fun p => (p.1 - s.origin.1, p.2 - s.origin.2)

/-- Euclidean norm of the difference of two points, np.linalg.norm(o - i). -/
def norm2 (p q : ℝ × ℝ) : ℝ := Real.sqrt ((p.1 - q.1) ^ 2 + (p.2 - q.2) ^ 2)

/-- Pipe (pipes.py): the concrete outer/inner variant pairings that the
source defines as subclasses of Pipe. -/
inductive Pipe where
  | circleCircle (outer inner : Circle)
  | circleRect (outer : Circle) (inner : Rect)
  | ellipseRect (outer : Ellipse) (inner : Rect)
  | rectRect (outer inner : Rect)
  | splineSpline (outer inner : CubicSplineShape)

/-- Pipe.area = outer.area - inner.area; the spline area integral is the
abstract parameter `splineArea`. -/
def Pipe.area (splineArea : CubicSplineShape → ℝ) : Pipe → ℝ
  | .circleCircle o i => o.area - i.area
  | .circleRect o i => o.area - i.area
  | .ellipseRect o i => o.area - i.area
  | .rectRect o i => o.area - i.area
  | .splineSpline o i => splineArea o - splineArea i

/-- Outer origin of a pipe. -/
def Pipe.outerOrigin : Pipe → ℝ × ℝ
  | .circleCircle o _ => o.origin
  | .circleRect o _ => o.origin
  | .ellipseRect o _ => o.origin
  | .rectRect o _ => o.origin
  | .splineSpline o _ => o.origin

/-- Inner origin of a pipe. -/
def Pipe.innerOrigin : Pipe → ℝ × ℝ
  | .circleCircle _ i => i.origin
  | .circleRect _ i => i.origin
  | .ellipseRect _ i => i.origin
  | .rectRect _ i => i.origin
  | .splineSpline _ i => i.origin

/-- Pipe.eccentricity = np.linalg.norm(outer.origin - inner.origin). -/
def Pipe.eccentricity (p : Pipe) : ℝ := norm2 p.outerOrigin p.innerOrigin

/-- The five wall-thickness landmark points a RectRect pipe builds for each
of its rectangles (outer_pts / inner_pts in RectRect.thickness). -/
def RectRect.landmarks (r : Rect) : List (ℝ × ℝ) :=
  [(r.origin.1, r.origin.2 + r.length / 2),
   (r.origin.1 - r.width / 2 + r.fillet_radius, r.origin.2 + r.length / 2 - r.fillet_radius),
   (r.origin.1 - r.width / 2, r.origin.2),
   (r.origin.1 - r.width / 2 + r.fillet_radius, r.origin.2 - r.length / 2 + r.fillet_radius),
   (r.origin.1, r.origin.2 - r.length / 2)]

/-- The enumerate-loop shared by RectRect.thickness and SplineSpline.thickness:
index 0 or 4 gives the vertical gap, index 2 the horizontal gap, and the
remaining indices the Euclidean distance. -/
def landmarkDistances (outer_pts inner_pts : List (ℝ × ℝ)) : List ℝ :=
  (outer_pts.zip inner_pts).enum.map fun x =>
    if x.1 = 0 ∨ x.1 = 4 then |x.2.1.2 - x.2.2.2|
    else if x.1 = 2 then |x.2.1.1 - x.2.2.1|
    else norm2 x.2.1 x.2.2

/-- Pipe thickness: CircleCircle collapses to a constant 5-vector,
RectRect and SplineSpline run the landmark-distance loop, and the
heterogeneous pairings have no thickness property (Python AttributeError),
modelled as `none`. -/
def Pipe.thickness : Pipe → Option (List ℝ)
  | .circleCircle o i => some (List.replicate 5 ((o.diameter - i.diameter) / 2))
  | .rectRect o i => some (landmarkDistances (RectRect.landmarks o) (RectRect.landmarks i))
  | .splineSpline o i => some (landmarkDistances (o.vertices.take 5) (i.vertices.take 5))
  | .circleRect _ _ => none
  | .ellipseRect _ _ => none

/-- Error classes raised by the process-analysis layer: Python
ZeroDivisionError and AttributeError. -/
inductive ProcErr where
  | zeroDivision
  | attributeError
deriving DecidableEq

/-- Default pipe used only as the out-of-range value of `List.getD`. -/
def defaultPipe : Pipe := .circleCircle ⟨(0, 0), 0⟩ ⟨(0, 0), 0⟩

/-- ProcessAnalysis.area_reductions: over consecutive pairs,
(initial.area - final.area) / initial.area; Python float division raises
ZeroDivisionError when initial.area is 0. -/
def ProcessAnalysis.areaReductions (splineArea : CubicSplineShape → ℝ) :
    List Pipe → Except ProcErr (List ℝ)
  | initial :: final :: rest =>
    if Pipe.area splineArea initial = 0 then .error .zeroDivision
    else
      match ProcessAnalysis.areaReductions splineArea (final :: rest) with
      | .error e => .error e
      | .ok l =>
        .ok (((Pipe.area splineArea initial - Pipe.area splineArea final) /
              Pipe.area splineArea initial) :: l)
  | _ => .ok []

/-- ProcessAnalysis.eccentricity_diffs: final.eccentricity - initial.eccentricity
over consecutive pairs; never raises. -/
def ProcessAnalysis.eccentricityDiffs : List Pipe → List ℝ
  | initial :: final :: rest =>
    (Pipe.eccentricity final - Pipe.eccentricity initial) ::
      ProcessAnalysis.eccentricityDiffs (final :: rest)
  | _ => []

/-- A numpy float64 value: a finite real, or an infinity or NaN produced by
dividing by zero (numpy only warns on these, it does not raise). -/
inductive NpF where
  | fin : ℝ → NpF
  | inf : NpF
  | ninf : NpF
  | nan : NpF

/-- Numpy true division of finite floats: a zero denominator yields
nan (0/0) or a signed infinity, never an exception. -/
def npDiv (a b : ℝ) : NpF :=
  if b = 0 then (if a = 0 then .nan else if 0 < a then .inf else .ninf)
  else .fin (a / b)

/-- ProcessAnalysis.thickness_reductions: elementwise
(initial.thickness - final.thickness) / initial.thickness on numpy arrays.
Accessing .thickness on a heterogeneous pipe raises AttributeError; the
array division itself never raises (see `npDiv`). -/
def ProcessAnalysis.thicknessReductions : List Pipe → Except ProcErr (List (List NpF))
  | initial :: final :: rest =>
    match Pipe.thickness initial, Pipe.thickness final with
    | some ti, some tf =>
      match ProcessAnalysis.thicknessReductions (final :: rest) with
      | .error e => .error e
      | .ok l => .ok (((ti.zip tf).map fun x => npDiv (x.1 - x.2) x.1) :: l)
    | _, _ => .error .attributeError
  | _ => .ok []

/-- get_rect_points (visualization/point_generators.py, Rect branch): the
five x coordinates and five y coordinates of the visualization landmarks. -/
def get_rect_points (shape : Rect) : List ℝ × List ℝ :=
  ([shape.origin.1,
    shape.origin.1 + shape.width / 2 - shape.fillet_radius + shape.fillet_radius / Real.sqrt 2,
    shape.origin.1 + shape.width / 2,
    shape.origin.1 + shape.width / 2 - shape.fillet_radius + shape.fillet_radius / Real.sqrt 2,
    shape.origin.1],
   [shape.origin.2 + shape.length / 2,
    shape.origin.2 + shape.length / 2 - shape.fillet_radius + shape.fillet_radius / Real.sqrt 2,
    shape.origin.2,
    shape.origin.2 - shape.length / 2 + shape.fillet_radius - shape.fillet_radius / Real.sqrt 2,
    shape.origin.2 - shape.length / 2])

/-- Mirror a point about the horizontal line y = oy. -/
def mirrorH (oy : ℝ) (p : ℝ × ℝ) : ℝ × ℝ := (p.1, 2 * oy - p.2)

/-- Spec-side definition (for the refinement comparison in C4): the 5-point
Rect landmark sequence as the spec states it — Top = (ox, oy+length/2);
Top-Right = (ox+width/2-r+r/sqrt 2, oy+length/2-r+r/sqrt 2);
Right = (ox+width/2, oy); Bottom-Right and Bottom mirror Top-Right and Top
about the horizontal center line. -/
def rectLandmarksSpec (r : Rect) : List (ℝ × ℝ) :=
  [(r.origin.1, r.origin.2 + r.length / 2),
   (r.origin.1 + r.width / 2 - r.fillet_radius + r.fillet_radius / Real.sqrt 2,
    r.origin.2 + r.length / 2 - r.fillet_radius + r.fillet_radius / Real.sqrt 2),
   (r.origin.1 + r.width / 2, r.origin.2),
   mirrorH r.origin.2
     (r.origin.1 + r.width / 2 - r.fillet_radius + r.fillet_radius / Real.sqrt 2,
      r.origin.2 + r.length / 2 - r.fillet_radius + r.fillet_radius / Real.sqrt 2),
   mirrorH r.origin.2 (r.origin.1, r.origin.2 + r.length / 2)]

end

open Classical

/-! Helper lemmas about the process-analysis series. -/

theorem eccentricityDiffs_length : ∀ ps : List Pipe,
    (ProcessAnalysis.eccentricityDiffs ps).length = ps.length - 1
  | [] => rfl
  | [_] => rfl
  | _ :: b :: t => by
    have ih := eccentricityDiffs_length (b :: t)
    simp only [ProcessAnalysis.eccentricityDiffs, List.length_cons] at ih ⊢
    omega

theorem eccentricityDiffs_getD : ∀ (ps : List Pipe) (i : ℕ), i + 1 < ps.length →
    (ProcessAnalysis.eccentricityDiffs ps).getD i 0 =
      Pipe.eccentricity (ps.getD (i + 1) defaultPipe) -
        Pipe.eccentricity (ps.getD i defaultPipe)
  | [], _, h => by simp at h
  | [_], _, h => by simp only [List.length_cons, List.length_nil] at h; omega
  | _ :: b :: t, 0, _ => by
    simp [ProcessAnalysis.eccentricityDiffs]
  | _ :: b :: t, i + 1, h => by
    have ih := eccentricityDiffs_getD (b :: t) i (by
      simp only [List.length_cons] at h ⊢; omega)
    simpa [ProcessAnalysis.eccentricityDiffs] using ih

theorem zipmap_getD (f : Pipe → Pipe → ℝ) : ∀ (ps : List Pipe) (i : ℕ),
    i + 1 < ps.length →
    ((ps.zip ps.tail).map fun x => f x.1 x.2).getD i 0 =
      f (ps.getD i defaultPipe) (ps.getD (i + 1) defaultPipe)
  | [], _, h => by simp at h
  | [_], _, h => by simp only [List.length_cons, List.length_nil] at h; omega
  | _ :: b :: t, 0, _ => by simp
  | _ :: b :: t, i + 1, h => by
    have ih := zipmap_getD f (b :: t) i (by
      simp only [List.length_cons] at h ⊢; omega)
    simpa using ih

theorem areaReductions_eq (sa : CubicSplineShape → ℝ) : ∀ ps : List Pipe,
    ProcessAnalysis.areaReductions sa ps =
      if ∃ i, i + 1 < ps.length ∧ Pipe.area sa (ps.getD i defaultPipe) = 0
      then .error .zeroDivision
      else .ok ((ps.zip ps.tail).map fun x =>
        (Pipe.area sa x.1 - Pipe.area sa x.2) / Pipe.area sa x.1)
  | [] => by simp [ProcessAnalysis.areaReductions]
  | [p] => by simp [ProcessAnalysis.areaReductions]
  | a :: b :: t => by
    have ih := areaReductions_eq sa (b :: t)
    by_cases h0 : Pipe.area sa a = 0
    · have hex : ∃ i, i + 1 < (a :: b :: t).length ∧
          Pipe.area sa ((a :: b :: t).getD i defaultPipe) = 0 :=
        ⟨0, by simp, by simpa using h0⟩
      rw [ProcessAnalysis.areaReductions, if_pos h0, if_pos hex]
    · by_cases hex : ∃ i, i + 1 < (b :: t).length ∧
          Pipe.area sa ((b :: t).getD i defaultPipe) = 0
      · obtain ⟨j, hj, hjz⟩ := hex
        have hex2 : ∃ i, i + 1 < (a :: b :: t).length ∧
            Pipe.area sa ((a :: b :: t).getD i defaultPipe) = 0 :=
          ⟨j + 1, by simp only [List.length_cons] at hj ⊢; omega, by simpa using hjz⟩
        have hex1 : ∃ i, i + 1 < (b :: t).length ∧
            Pipe.area sa ((b :: t).getD i defaultPipe) = 0 := ⟨j, hj, hjz⟩
        rw [if_pos hex1] at ih
        rw [ProcessAnalysis.areaReductions, if_neg h0, ih, if_pos hex2]
      · have hex2 : ¬ ∃ i, i + 1 < (a :: b :: t).length ∧
            Pipe.area sa ((a :: b :: t).getD i defaultPipe) = 0 := by
          rintro ⟨i, hi, hz⟩
          match i with
          | 0 => exact h0 (by simpa using hz)
          | j + 1 =>
            exact hex ⟨j, by simp only [List.length_cons] at hi ⊢; omega,
              by simpa using hz⟩
        rw [if_neg hex] at ih
        rw [ProcessAnalysis.areaReductions, if_neg h0, ih, if_neg hex2]
        rfl

theorem thicknessReductions_ok_length : ∀ (ps : List Pipe) (l : List (List NpF)),
    ProcessAnalysis.thicknessReductions ps = .ok l → l.length = ps.length - 1
  | [], l, h => by
    simp only [ProcessAnalysis.thicknessReductions, Except.ok.injEq] at h
    simp [← h]
  | [_], l, h => by
    simp only [ProcessAnalysis.thicknessReductions, Except.ok.injEq] at h
    simp [← h]
  | a :: b :: t, l, h => by
    rw [ProcessAnalysis.thicknessReductions] at h
    cases hta : Pipe.thickness a with
    | none => rw [hta] at h; cases h
    | some ta =>
      cases htb : Pipe.thickness b with
      | none => rw [hta, htb] at h; cases h
      | some tb =>
        rw [hta, htb] at h
        cases hrec : ProcessAnalysis.thicknessReductions (b :: t) with
        | error e => rw [hrec] at h; cases h
        | ok l2 =>
          rw [hrec] at h
          have ih := thicknessReductions_ok_length (b :: t) l2 hrec
          cases h
          simp only [List.length_cons] at ih ⊢
          omega

/-- C5: for every sequence of pipes and every valid index i,
eccentricityDiffs[i] = pipe[i+1].eccentricity - pipe[i].eccentricity, so a
positive entry means the eccentricity grew from stage i to stage i+1. -/
theorem C5_eccentricity_diffs_signed (ps : List Pipe) (i : ℕ)
    (h : i + 1 < ps.length) :
    (ProcessAnalysis.eccentricityDiffs ps).getD i 0 =
      Pipe.eccentricity (ps.getD (i + 1) defaultPipe) -
        Pipe.eccentricity (ps.getD i defaultPipe) ∧
    (0 < (ProcessAnalysis.eccentricityDiffs ps).getD i 0 ↔
      Pipe.eccentricity (ps.getD i defaultPipe) <
        Pipe.eccentricity (ps.getD (i + 1) defaultPipe)) := by
  have h1 := eccentricityDiffs_getD ps i h
  exact ⟨h1, by rw [h1]; exact sub_pos⟩

/-- C5 witness: the theorem applied to a concrete two-stage process. -/
theorem C5_eccentricity_diffs_signed_witness :
    (ProcessAnalysis.eccentricityDiffs
        [.circleCircle ⟨(0, 0), 4⟩ ⟨(0, 3), 2⟩,
         .circleCircle ⟨(0, 0), 4⟩ ⟨(0, 0), 2⟩]).getD 0 0 =
      Pipe.eccentricity ([(.circleCircle ⟨(0, 0), 4⟩ ⟨(0, 3), 2⟩ : Pipe),
          .circleCircle ⟨(0, 0), 4⟩ ⟨(0, 0), 2⟩].getD 1 defaultPipe) -
        Pipe.eccentricity ([(.circleCircle ⟨(0, 0), 4⟩ ⟨(0, 3), 2⟩ : Pipe),
          .circleCircle ⟨(0, 0), 4⟩ ⟨(0, 0), 2⟩].getD 0 defaultPipe) :=
  (C5_eccentricity_diffs_signed
    [.circleCircle ⟨(0, 0), 4⟩ ⟨(0, 3), 2⟩,
     .circleCircle ⟨(0, 0), 4⟩ ⟨(0, 0), 2⟩] 0 (by simp)).1

/-- C9: thickness on a pipe pairing two different shape variants (Circle
outer with Rect inner, or Ellipse outer with Rect inner) is the
not-applicable condition `none` (Python AttributeError), never a numeric
array; in the reduction series this surfaces as the attributeError class,
distinct from the numeric zeroDivision class. -/
theorem C9_hetero_thickness_rejected :
    (∀ (o : Circle) (i : Rect), Pipe.thickness (.circleRect o i) = none) ∧
    (∀ (o : Ellipse) (i : Rect), Pipe.thickness (.ellipseRect o i) = none) ∧
    (∀ (o : Circle) (i : Rect) (q : Pipe),
      ProcessAnalysis.thicknessReductions [.circleRect o i, q] =
        .error .attributeError) ∧
    ProcErr.attributeError ≠ ProcErr.zeroDivision := by
  refine ⟨fun o i => rfl, fun o i => rfl, fun o i q => ?_, by decide⟩
  rw [ProcessAnalysis.thicknessReductions]
  rcases Pipe.thickness q with _ | tf <;> rfl

theorem relVertices_explicit (s : CubicSplineShape) :
    s.relVertices =
      [(s.v1.1, s.v1.2), (s.v2.1, s.v2.2), (s.v3.1, s.v3.2), (s.v2.1, -s.v2.2),
       (0, -s.v1.2), (-s.v2.1, -s.v2.2), (-s.v3.1, 0), (-s.v2.1, s.v2.2)] := by
  simp [CubicSplineShape.relVertices, CubicSplineShape.vertices,
    add_sub_cancel_right, sub_self]

/-- C3: for Rect-Rect and Spline-Spline pipes the 5-element thickness
sequence follows the index-dependent distance rule over the outer/inner
landmark pairs: indices 0 and 4 give the absolute y gap, index 2 the
absolute x gap, and indices 1 and 3 the Euclidean distance. -/
theorem C3_thickness_index_rule (ro ri : Rect) (so si : CubicSplineShape) :
    Pipe.thickness (.rectRect ro ri) = some
      [|((RectRect.landmarks ro).getD 0 (0, 0)).2 -
          ((RectRect.landmarks ri).getD 0 (0, 0)).2|,
       norm2 ((RectRect.landmarks ro).getD 1 (0, 0))
         ((RectRect.landmarks ri).getD 1 (0, 0)),
       |((RectRect.landmarks ro).getD 2 (0, 0)).1 -
          ((RectRect.landmarks ri).getD 2 (0, 0)).1|,
       norm2 ((RectRect.landmarks ro).getD 3 (0, 0))
         ((RectRect.landmarks ri).getD 3 (0, 0)),
       |((RectRect.landmarks ro).getD 4 (0, 0)).2 -
          ((RectRect.landmarks ri).getD 4 (0, 0)).2|] ∧
    Pipe.thickness (.splineSpline so si) = some
      [|((so.vertices.take 5).getD 0 (0, 0)).2 -
          ((si.vertices.take 5).getD 0 (0, 0)).2|,
       norm2 ((so.vertices.take 5).getD 1 (0, 0))
         ((si.vertices.take 5).getD 1 (0, 0)),
       |((so.vertices.take 5).getD 2 (0, 0)).1 -
          ((si.vertices.take 5).getD 2 (0, 0)).1|,
       norm2 ((so.vertices.take 5).getD 3 (0, 0))
         ((si.vertices.take 5).getD 3 (0, 0)),
       |((so.vertices.take 5).getD 4 (0, 0)).2 -
          ((si.vertices.take 5).getD 4 (0, 0)).2|] :=
  ⟨rfl, rfl⟩

/-- C4 counterexample: for the Rect with origin (0,0), length 6, width 4 and
fillet radius 0, the landmark sequence the wall-thickness computation
actually uses is not the sequence the claim states: the code takes the left
side of the rectangle, the claim the right side. -/
theorem C4_landmarks_cex :
    RectRect.landmarks
        { origin := (0, 0), length := 6, width := 4, fillet_radius := 0 } ≠
      rectLandmarksSpec
        { origin := (0, 0), length := 6, width := 4, fillet_radius := 0 } := by
  intro h
  simp only [RectRect.landmarks, rectLandmarksSpec, mirrorH,
    List.cons.injEq, Prod.mk.injEq] at h
  norm_num at h

/-- C4 (amended): the wall-thickness computation uses Top = (ox, oy+length/2),
the top-left fillet circle center (ox-width/2+r, oy+length/2-r) and
Left = (ox-width/2, oy), the remaining two points mirroring the first two
about the horizontal center line; the claimed sequence (right side, with the
r/sqrt 2 arc offset) is exactly the landmark sequence produced by the
visualization's get_rect_points. -/
theorem C4_landmarks_amended (r : Rect) :
    RectRect.landmarks r =
      [(r.origin.1, r.origin.2 + r.length / 2),
       (r.origin.1 - r.width / 2 + r.fillet_radius,
        r.origin.2 + r.length / 2 - r.fillet_radius),
       (r.origin.1 - r.width / 2, r.origin.2),
       mirrorH r.origin.2
         (r.origin.1 - r.width / 2 + r.fillet_radius,
          r.origin.2 + r.length / 2 - r.fillet_radius),
       mirrorH r.origin.2 (r.origin.1, r.origin.2 + r.length / 2)] ∧
    (get_rect_points r).1.zip (get_rect_points r).2 = rectLandmarksSpec r := by
  constructor
  · simp only [RectRect.landmarks, mirrorH, List.cons.injEq, Prod.mk.injEq]
    and_intros <;> first | trivial | ring
  · simp only [get_rect_points, rectLandmarksSpec, mirrorH, List.zip,
      List.zipWith, List.cons.injEq, Prod.mk.injEq]
    and_intros <;> first | trivial | ring

/-- C6 counterexample: the vertex set of the spline profile with control
offsets v1 = (1,2), v2 = (3,4), v3 = (5,6) is not closed under reflection:
the generated vertex (1,2) reflects across the X axis to (1,-2), which is
not a generated vertex. -/
theorem C6_spline_symmetry_cex :
    ¬ ∀ p ∈ CubicSplineShape.relVertices ⟨(0, 0), (1, 2), (3, 4), (5, 6)⟩,
        (p.1, -p.2) ∈ CubicSplineShape.relVertices ⟨(0, 0), (1, 2), (3, 4), (5, 6)⟩ ∧
        (-p.1, p.2) ∈ CubicSplineShape.relVertices ⟨(0, 0), (1, 2), (3, 4), (5, 6)⟩ := by
  intro h
  have hm : ((1 : ℝ), (2 : ℝ)) ∈
      CubicSplineShape.relVertices ⟨(0, 0), (1, 2), (3, 4), (5, 6)⟩ := by
    rw [relVertices_explicit]
    norm_num
  have hx := (h (1, 2) hm).1
  rw [relVertices_explicit] at hx
  norm_num [Prod.ext_iff] at hx

/-- C6 (amended): for every spline profile whose first control offset lies on
the Y axis (v1.x = 0) and whose third lies on the X axis (v3.y = 0) — the
form displayed in the spec — the set of 8 generated vertices relative to the
origin is closed under reflection across the X axis and across the Y axis. -/
theorem C6_spline_vertices_symmetric (s : CubicSplineShape)
    (h1 : s.v1.1 = 0) (h3 : s.v3.2 = 0) :
    ∀ p ∈ s.relVertices,
      (p.1, -p.2) ∈ s.relVertices ∧ (-p.1, p.2) ∈ s.relVertices := by
  intro p hp
  rw [relVertices_explicit] at hp ⊢
  simp only [List.mem_cons, List.not_mem_nil, or_false] at hp
  rcases hp with rfl | rfl | rfl | rfl | rfl | rfl | rfl | rfl <;>
    constructor <;> simp [h1, h3]

/-- C6 witness: the amended symmetry applied to the concrete profile with
v1 = (0,2), v2 = (1,1), v3 = (3,0) at the generated vertex (1,1). -/
theorem C6_spline_vertices_symmetric_witness :
    ((1 : ℝ), (-1 : ℝ)) ∈
      CubicSplineShape.relVertices ⟨(0, 0), (0, 2), (1, 1), (3, 0)⟩ ∧
    ((-1 : ℝ), (1 : ℝ)) ∈
      CubicSplineShape.relVertices ⟨(0, 0), (0, 2), (1, 1), (3, 0)⟩ :=
  C6_spline_vertices_symmetric ⟨(0, 0), (0, 2), (1, 1), (3, 0)⟩ rfl rfl (1, 1)
    (by rw [relVertices_explicit]; norm_num)

/-- C1: whenever area_reductions succeeds, entry i is
(pipe[i].area - pipe[i+1].area) / pipe[i].area for every i in 0..N-2, and the
computation fails with the ZeroDivisionError class whenever pipe[i].area = 0
for some i in 0..N-2. -/
theorem C1_area_reductions_formula (sa : CubicSplineShape → ℝ) (ps : List Pipe) :
    (∀ l, ProcessAnalysis.areaReductions sa ps = .ok l →
      ∀ i, i + 1 < ps.length →
        l.getD i 0 =
          (Pipe.area sa (ps.getD i defaultPipe) -
            Pipe.area sa (ps.getD (i + 1) defaultPipe)) /
            Pipe.area sa (ps.getD i defaultPipe)) ∧
    ((∃ i, i + 1 < ps.length ∧ Pipe.area sa (ps.getD i defaultPipe) = 0) →
      ProcessAnalysis.areaReductions sa ps = .error .zeroDivision) := by
  constructor
  · intro l hok i hi
    rw [areaReductions_eq] at hok
    split at hok
    · cases hok
    · cases hok
      exact zipmap_getD (fun x y => (Pipe.area sa x - Pipe.area sa y) / Pipe.area sa x)
        ps i hi
  · intro hex
    rw [areaReductions_eq, if_pos hex]

/-- C1 witness: on a two-stage all-zero-area process the computation fails
with the ZeroDivisionError class, and on a nondegenerate two-stage process
the single entry is the area-reduction ratio. -/
theorem C1_area_reductions_formula_witness :
    ProcessAnalysis.areaReductions (fun _ => 0)
      [.circleCircle ⟨(0, 0), 0⟩ ⟨(0, 0), 0⟩, .circleCircle ⟨(0, 0), 0⟩ ⟨(0, 0), 0⟩] =
      .error .zeroDivision ∧
    (ProcessAnalysis.areaReductions (fun _ => 0)
      [.circleCircle ⟨(0, 0), 2⟩ ⟨(0, 0), 0⟩, .circleCircle ⟨(0, 0), 2⟩ ⟨(0, 0), 2⟩] =
        .ok [1] →
      ([(1 : ℝ)]).getD 0 0 =
        (Pipe.area (fun _ => 0)
            ([(.circleCircle ⟨(0, 0), 2⟩ ⟨(0, 0), 0⟩ : Pipe),
              .circleCircle ⟨(0, 0), 2⟩ ⟨(0, 0), 2⟩].getD 0 defaultPipe) -
          Pipe.area (fun _ => 0)
            ([(.circleCircle ⟨(0, 0), 2⟩ ⟨(0, 0), 0⟩ : Pipe),
              .circleCircle ⟨(0, 0), 2⟩ ⟨(0, 0), 2⟩].getD 1 defaultPipe)) /
          Pipe.area (fun _ => 0)
            ([(.circleCircle ⟨(0, 0), 2⟩ ⟨(0, 0), 0⟩ : Pipe),
              .circleCircle ⟨(0, 0), 2⟩ ⟨(0, 0), 2⟩].getD 0 defaultPipe)) := by
  constructor
  · exact (C1_area_reductions_formula (fun _ => 0) _).2
      ⟨0, by simp, by simp [Pipe.area, Circle.area]⟩
  · intro hok
    exact (C1_area_reductions_formula (fun _ => 0) _).1 [1] hok 0 (by simp)

/-- C2: area_reductions and thickness_reductions, whenever they succeed, and
eccentricity_diffs always, have length N - 1; for N = 0 or N = 1 all three
succeed with the empty series, raising no error. -/
theorem C2_series_lengths (sa : CubicSplineShape → ℝ) (ps : List Pipe) :
    (∀ l, ProcessAnalysis.areaReductions sa ps = .ok l →
      l.length = ps.length - 1) ∧
    (ProcessAnalysis.eccentricityDiffs ps).length = ps.length - 1 ∧
    (∀ l, ProcessAnalysis.thicknessReductions ps = .ok l →
      l.length = ps.length - 1) ∧
    (ps.length ≤ 1 →
      ProcessAnalysis.areaReductions sa ps = .ok [] ∧
      ProcessAnalysis.eccentricityDiffs ps = [] ∧
      ProcessAnalysis.thicknessReductions ps = .ok []) := by
  refine ⟨?_, eccentricityDiffs_length ps, thicknessReductions_ok_length ps, ?_⟩
  · intro l hok
    rw [areaReductions_eq] at hok
    split at hok
    · cases hok
    · cases hok
      simp [List.length_zip, List.length_tail]
  · intro hlen
    match ps, hlen with
    | [], _ => exact ⟨rfl, rfl, rfl⟩
    | [p], _ => exact ⟨rfl, rfl, rfl⟩

/-- C2 witness: a singleton process yields three empty series with no
error. -/
theorem C2_series_lengths_witness :
    ProcessAnalysis.areaReductions (fun _ => 0)
      [.circleCircle ⟨(0, 0), 2⟩ ⟨(0, 0), 1⟩] = .ok [] ∧
    ProcessAnalysis.eccentricityDiffs
      [(.circleCircle ⟨(0, 0), 2⟩ ⟨(0, 0), 1⟩ : Pipe)] = [] ∧
    ProcessAnalysis.thicknessReductions
      [(.circleCircle ⟨(0, 0), 2⟩ ⟨(0, 0), 1⟩ : Pipe)] = .ok [] :=
  (C2_series_lengths (fun _ => 0)
    [.circleCircle ⟨(0, 0), 2⟩ ⟨(0, 0), 1⟩]).2.2.2 (by simp)

/-- C7: a CircleCircle thickness is the constant 5-sequence
(outer.diameter - inner.diameter) / 2; for outer diameter 85 and inner
diameter 53, both centred at the origin, thickness is [16,16,16,16,16],
eccentricity is 0 and area is pi * (42.5 ^ 2 - 26.5 ^ 2). -/
theorem C7_circle_circle_metrics :
    (∀ (o i : Circle) (t : List ℝ), Pipe.thickness (.circleCircle o i) = some t →
      t.length = 5 ∧ ∀ x ∈ t, x = (o.diameter - i.diameter) / 2) ∧
    Pipe.thickness (.circleCircle ⟨(0, 0), 85⟩ ⟨(0, 0), 53⟩) =
      some [16, 16, 16, 16, 16] ∧
    Pipe.eccentricity (.circleCircle ⟨(0, 0), 85⟩ ⟨(0, 0), 53⟩) = 0 ∧
    ∀ sa, Pipe.area sa (.circleCircle ⟨(0, 0), 85⟩ ⟨(0, 0), 53⟩) =
      Real.pi * (42.5 ^ 2 - 26.5 ^ 2) := by
  refine ⟨?_, ?_, ?_, ?_⟩
  · intro o i t h
    rw [Pipe.thickness, Option.some.injEq] at h
    subst h
    exact ⟨by simp, fun x hx => List.eq_of_mem_replicate hx⟩
  · rw [Pipe.thickness]
    norm_num [List.replicate]
  · simp [Pipe.eccentricity, norm2, Pipe.outerOrigin, Pipe.innerOrigin]
  · intro sa
    rw [Pipe.area]
    simp only [Circle.area]
    ring_nf

/-- C7 witness: the constant-thickness clause applied to the concrete
85/53 pipe. -/
theorem C7_circle_circle_metrics_witness :
    (List.replicate 5 (((85 : ℝ) - 53) / 2)).length = 5 ∧ (16 : ℝ) = ((85 : ℝ) - 53) / 2 := by
  have h := C7_circle_circle_metrics.1 ⟨(0, 0), 85⟩ ⟨(0, 0), 53⟩
    (List.replicate 5 (((85 : ℝ) - 53) / 2)) rfl
  exact ⟨h.1, h.2 16 (by norm_num [List.mem_replicate])⟩

/-- C8 (code bug witness): when the first pipe has an all-zero thickness,
thickness_reductions does not fail — numpy elementwise division only warns on
a zero denominator — so the code silently returns a row of negative-infinity
values instead of surfacing an explicit failure. -/
theorem C8_zero_thickness_is_silent :
    Pipe.thickness (.circleCircle ⟨(0, 0), 10⟩ ⟨(0, 0), 10⟩) =
      some [0, 0, 0, 0, 0] ∧
    ProcessAnalysis.thicknessReductions
      [.circleCircle ⟨(0, 0), 10⟩ ⟨(0, 0), 10⟩,
       .circleCircle ⟨(0, 0), 10⟩ ⟨(0, 0), 8⟩] =
      .ok [[.ninf, .ninf, .ninf, .ninf, .ninf]] := by
  constructor
  · rw [Pipe.thickness]
    norm_num [List.replicate]
  · rw [ProcessAnalysis.thicknessReductions]
    norm_num [Pipe.thickness, List.replicate, ProcessAnalysis.thicknessReductions,
      List.zip, List.zipWith, npDiv]

/-- C10: a Rect constructed without an explicit fillet radius defaults to
fillet_radius = 2.5 (not 0), so its area is
length * width - (4 * 2.5 ^ 2 - pi * 2.5 ^ 2), which differs from
length * width. -/
theorem C10_rect_default_fillet_radius (o : ℝ × ℝ) (l w : ℝ) :
    ({ origin := o, length := l, width := w } : Rect).fillet_radius = 2.5 ∧
    ({ origin := o, length := l, width := w } : Rect).fillet_radius ≠ 0 ∧
    ({ origin := o, length := l, width := w } : Rect).area =
      l * w - (4 * 2.5 ^ 2 - Real.pi * 2.5 ^ 2) ∧
    ({ origin := o, length := l, width := w } : Rect).area ≠ l * w := by
  refine ⟨rfl, by norm_num, by simp [Rect.area], ?_⟩
  intro h
  simp only [Rect.area] at h
  have hpi : Real.pi < 3.15 := Real.pi_lt_d2
  nlinarith [hpi]

end DrawingPipe
